import Mathlib

/-!
Verification of the mission-orchestration system described in spec.md.

The repository ships a single source file, `src/main.py`, which constructs an
`AgenticController` and runs `mission_loop` with a fixed endpoint URL.  All the
internal components (Protocol Client, Telemetry Cache, Safety Monitor, Mission
State Machine, Mission Orchestrator) live in modules that are imported by
`main.py` but are not part of the repository tree; they are therefore modelled
here from the spec, faithfully to its words, and `main.py` itself is embedded
directly.
-/

namespace PX4

/-- Modelled from the spec: §3 `VehicleTelemetry` — position (lat/lon/alt),
battery fraction in [0,1], armed flag, flight mode, link timestamp.  The
concrete telemetry type is missing from `src/` (only `main.py` is present).
Coordinates and the battery fraction are rationals. -/
structure VehicleTelemetry where
  lat : Rat
  lon : Rat
  alt : Rat
  battery : Rat
  armed : Bool
  mode : String
  timestamp : Nat
  deriving Repr, DecidableEq

/-- Modelled from the spec: the kinds of safety violation named in §4.3 and §8
— battery below floor, position outside geofence, telemetry staleness above
threshold (link loss). -/
inductive ViolationKind
  | lowBattery
  | geofenceBreach
  | linkLoss
  deriving Repr, DecidableEq

/-- Modelled from the spec: §3 `SafetyViolation` — `{kind, detail, detected_at}`. -/
structure SafetyViolation where
  kind : ViolationKind
  detail : String
  detectedAt : Nat
  deriving Repr, DecidableEq

/-- Modelled from the spec: the Safety Monitor's configured thresholds from
§4.3 — geofence, battery floor, max staleness.  The geofence polygon is
represented by its containment test on a (lat, lon) position. -/
structure SafetyConfig where
  geofenceContains : Rat → Rat → Bool
  batteryFloor : Rat
  maxStaleness : Nat

/-- Modelled from the spec: §4.3 / §8 — the Safety Monitor's `evaluate` is a
pure function of the current snapshot plus the configured thresholds (here the
staleness counter accompanies the snapshot, per §4.2 the cache exposes it).
It flags a violation iff battery < floor, or position outside geofence, or
staleness > threshold, and never otherwise.  Purity is by construction: the
result depends only on the arguments. -/
def evaluate (cfg : SafetyConfig) (t : VehicleTelemetry) (staleness : Nat) :
    Option SafetyViolation :=
  if t.battery < cfg.batteryFloor then
    some ⟨ViolationKind.lowBattery, "battery below floor", t.timestamp⟩
  else if cfg.geofenceContains t.lat t.lon = false then
    some ⟨ViolationKind.geofenceBreach, "position outside geofence", t.timestamp⟩
  else if cfg.maxStaleness < staleness then
    some ⟨ViolationKind.linkLoss, "telemetry staleness above threshold", t.timestamp⟩
  else
    none

/-- C1: the Safety Monitor's `evaluate` returns a violation iff battery is
below the configured floor, or the position is outside the configured
geofence, or the staleness exceeds the configured threshold; in every other
case it returns `none`.  It is a pure function of the snapshot, the staleness
counter and the configured thresholds — by construction, being a Lean
function of exactly those arguments. -/
theorem C1_safety_monitor_iff (cfg : SafetyConfig) (t : VehicleTelemetry) (s : Nat) :
    ((evaluate cfg t s).isSome = true ↔
      (t.battery < cfg.batteryFloor ∨ cfg.geofenceContains t.lat t.lon = false ∨
        cfg.maxStaleness < s)) ∧
    (evaluate cfg t s = none ↔
      (¬ t.battery < cfg.batteryFloor ∧ cfg.geofenceContains t.lat t.lon = true ∧
        ¬ cfg.maxStaleness < s)) := by
  unfold evaluate
  constructor
  · split
    · simp_all
    · split
      · simp_all
      · split <;> simp_all
  · split
    · simp_all
    · split
      · simp_all
      · split <;> simp_all

/-- Modelled from the spec: §3 `Action` — the closed tagged variant over
{Arm, Takeoff(alt), GotoWaypoint(lat,lon,alt), Loiter, Land, ReturnToLaunch,
Disarm}, produced only by the decision agent or the Safety Monitor. -/
inductive Action
  | arm
  | takeoff (alt : Rat)
  | gotoWaypoint (lat lon alt : Rat)
  | loiter
  | land
  | returnToLaunch
  | disarm
  deriving Repr, DecidableEq

/-- Modelled from the spec: §3 `MissionState` — the enum
{Idle, Connecting, Armed, InFlight, Landing, Completed, Aborted, Failed}. -/
inductive MissionState
  | idle
  | connecting
  | armed
  | inFlight
  | landing
  | completed
  | aborted
  | failed
  deriving Repr, DecidableEq, Fintype

/-- Completed, Aborted and Failed are the terminal mission states (§4.4). -/
def MissionState.isTerminal : MissionState → Bool
  | .completed => true
  | .aborted => true
  | .failed => true
  | _ => false

/-- Modelled from the spec: the events driving the Mission State Machine's
transition table of §4.4 — session open, successful Arm command, Takeoff
completion, Land/ReturnToLaunch dispatched, disarm confirmed, unrecoverable
safety violation, and unrecoverable protocol error. -/
inductive MissionEvent
  | sessionOpened
  | armCompleted
  | takeoffCompleted
  | landDispatched
  | disarmConfirmed
  | safetyAbort
  | protocolFailure
  deriving Repr, DecidableEq, Fintype

/-- Modelled from the spec: §4.4's transition table, as an explicit list of
(current state, event, next state) rows.  The "any state → Aborted / Failed"
rows are expanded over the non-terminal states only, since "Aborted and Failed
and Completed are terminal; no transition is defined out of them". -/
def transitionTable : List (MissionState × MissionEvent × MissionState) :=
  [ (.idle, .sessionOpened, .connecting),
    (.connecting, .armCompleted, .armed),
    (.armed, .takeoffCompleted, .inFlight),
    (.inFlight, .landDispatched, .landing),
    (.landing, .disarmConfirmed, .completed),
    (.idle, .safetyAbort, .aborted),
    (.connecting, .safetyAbort, .aborted),
    (.armed, .safetyAbort, .aborted),
    (.inFlight, .safetyAbort, .aborted),
    (.landing, .safetyAbort, .aborted),
    (.idle, .protocolFailure, .failed),
    (.connecting, .protocolFailure, .failed),
    (.armed, .protocolFailure, .failed),
    (.inFlight, .protocolFailure, .failed),
    (.landing, .protocolFailure, .failed) ]

/-- Modelled from the spec: the failure reported by an illegal transition
(§4.4: `fails(IllegalTransition)`). -/
inductive TransitionError
  | illegalTransition
  deriving Repr, DecidableEq

instance {ε α : Type} [DecidableEq ε] [DecidableEq α] : DecidableEq (Except ε α) :=
  fun a b =>
    match a, b with
    | Except.ok x, Except.ok y =>
        if h : x = y then isTrue (h ▸ rfl)
        else isFalse (fun hc => h (Except.ok.inj hc))
    | Except.error x, Except.error y =>
        if h : x = y then isTrue (h ▸ rfl)
        else isFalse (fun hc => h (Except.error.inj hc))
    | Except.ok _, Except.error _ => isFalse (fun hc => Except.noConfusion hc)
    | Except.error _, Except.ok _ => isFalse (fun hc => Except.noConfusion hc)

/-- Modelled from the spec: §4.4 `transition(current, event) -> next_state |
fails(IllegalTransition)`, by lookup in the transition table; a state-event
pair with no row fails. -/
def transition (s : MissionState) (e : MissionEvent) :
    Except TransitionError MissionState :=
  match transitionTable.find? (fun r => r.1 == s && r.2.1 == e) with
  | some r => Except.ok r.2.2
  | none => Except.error TransitionError.illegalTransition

/-- The state actually held after attempting an event: a failed transition
leaves the current `MissionState` unchanged (§4.4: illegal transitions are
rejected, never silently coerced, and never mutate `MissionState`). -/
def applyEvent (s : MissionState) (e : MissionEvent) : MissionState :=
  match transition s e with
  | Except.ok s2 => s2
  | Except.error _ => s

/-- C4: every state-event pair with no row in the transition table — in
particular every event applied to a terminal state — fails with
`IllegalTransition` and leaves the `MissionState` unchanged, and a transition
never succeeds unless its row is in the table (no silent coercion). -/
theorem C4_illegal_transitions :
    (∀ s e, transitionTable.find? (fun r => r.1 == s && r.2.1 == e) = none →
      transition s e = Except.error TransitionError.illegalTransition ∧
        applyEvent s e = s) ∧
    (∀ s e, s.isTerminal = true →
      transition s e = Except.error TransitionError.illegalTransition ∧
        applyEvent s e = s) ∧
    (∀ s e s2, transition s e = Except.ok s2 →
      transitionTable.find? (fun r => r.1 == s && r.2.1 == e) ≠ none) := by
  refine ⟨?_, ?_, ?_⟩ <;> decide

/-- Witness for C4 at a concrete illegal pair: the terminal state Completed
rejects the Takeoff-completion event and stays Completed. -/
theorem C4_illegal_transitions_witness :
    transition MissionState.completed MissionEvent.takeoffCompleted =
      Except.error TransitionError.illegalTransition ∧
    applyEvent MissionState.completed MissionEvent.takeoffCompleted =
      MissionState.completed :=
  C4_illegal_transitions.2.1 MissionState.completed MissionEvent.takeoffCompleted
    (by decide)

/-- Modelled from the spec: the failure taxonomy of §7 that can become the
triggering cause of a terminal state — Decision-Timeout recurring beyond the
configured count, and Protocol-Rejected beyond the retry ceiling. -/
inductive FailureCause
  | decisionTimeout
  | protocolRejected
  deriving Repr, DecidableEq

/-- Modelled from the spec: the Orchestrator's configuration — the Safety
Monitor thresholds, the "near zero" altitude bound of §4.3, the configured
default action of §4.5 step 3 (Loiter), and the configured count of §7 beyond
which recurring decision timeouts become fatal. -/
structure OrchestratorConfig where
  safety : SafetyConfig
  nearZeroAlt : Rat
  defaultAction : Action
  maxConsecutiveTimeouts : Nat

/-- Modelled from the spec: §4.3 — on a violation the Safety Monitor emits
ReturnToLaunch, or Land if the altitude is near zero. -/
def overrideAction (cfg : OrchestratorConfig) (t : VehicleTelemetry) : Action :=
  if t.alt ≤ cfg.nearZeroAlt then Action.land else Action.returnToLaunch

/-- Modelled from the spec: the Orchestrator's per-mission mutable state that
the decision step reads and writes — the `MissionState`, the count of
consecutive decision timeouts (§7), and the triggering cause reported with a
terminal state (§7). -/
structure LoopState where
  mission : MissionState
  consecutiveTimeouts : Nat
  failureCause : Option FailureCause
  deriving Repr, DecidableEq

/-- Modelled from the spec: §4.5 steps 2–3, the decision part of one cycle.
The Safety Monitor is evaluated first; on a violation the corresponding
override Action is synthesized and step 3 is skipped, so the agent's response
is never consulted (tie-break: safety always wins).  Otherwise the agent's
response (already bounded by the decision timeout, `none` meaning it did not
respond in time) is used; on a timeout the configured default is chosen for
this cycle, the consecutive-timeout count increments, and only when that count
reaches the configured maximum does the mission become Failed with cause
Decision-Timeout (§7); a successful response resets the count. -/
def decideCycle (cfg : OrchestratorConfig) (st : LoopState) (t : VehicleTelemetry)
    (staleness : Nat) (agentResp : Option Action) : Action × LoopState :=
  match evaluate cfg.safety t staleness with
  | some _ => (overrideAction cfg t, st)
  | none =>
      match agentResp with
      | some a => (a, { st with consecutiveTimeouts := 0 })
      | none =>
          if cfg.maxConsecutiveTimeouts ≤ st.consecutiveTimeouts + 1 then
            (cfg.defaultAction,
              { mission := MissionState.failed,
                consecutiveTimeouts := st.consecutiveTimeouts + 1,
                failureCause := some FailureCause.decisionTimeout })
          else
            (cfg.defaultAction,
              { st with consecutiveTimeouts := st.consecutiveTimeouts + 1 })

/-- Iterate the decision part of the cycle over a list of per-cycle inputs
(telemetry snapshot, staleness, agent response), threading the loop state. -/
def runDecisions (cfg : OrchestratorConfig) (st : LoopState) :
    List (VehicleTelemetry × Nat × Option Action) → LoopState
  | [] => st
  | i :: rest => runDecisions cfg (decideCycle cfg st i.1 i.2.1 i.2.2).2 rest

/-- A concrete configuration used to instantiate the orchestrator theorems:
battery floor 1/10 (the spec's scenario), an all-accepting geofence, staleness
threshold 5, near-zero altitude 1/2, default action Loiter, and the fatal
consecutive-timeout count 3 (the spec's scenario). -/
def cfgEx : OrchestratorConfig :=
  { safety :=
      { geofenceContains := fun _ _ => true
        batteryFloor := mkRat 1 10
        maxStaleness := 5 }
    nearZeroAlt := mkRat 1 2
    defaultAction := Action.loiter
    maxConsecutiveTimeouts := 3 }

/-- A concrete in-flight loop state with no accumulated decision timeouts. -/
def stInFlight : LoopState :=
  { mission := MissionState.inFlight, consecutiveTimeouts := 0, failureCause := none }

/-- A concrete healthy snapshot: battery 3/10, inside the geofence, at
altitude 20. -/
def tHealthy : VehicleTelemetry :=
  { lat := 0, lon := 0, alt := 20, battery := mkRat 3 10, armed := true
    mode := "AUTO", timestamp := 100 }

/-- A concrete snapshot with battery 9/100 (below the 1/10 floor) while on the
ground (altitude 0, i.e. near zero). -/
def tLowBatteryGround : VehicleTelemetry :=
  { lat := 0, lon := 0, alt := 0, battery := mkRat 9 100, armed := true
    mode := "AUTO", timestamp := 100 }

/-- A concrete snapshot with battery 9/100 (below the 1/10 floor) at altitude
20 (not near zero). -/
def tLowBatteryAir : VehicleTelemetry :=
  { lat := 0, lon := 0, alt := 20, battery := mkRat 9 100, armed := true
    mode := "AUTO", timestamp := 100 }

/-- C2 counterexample: with battery 9/100 below the 1/10 floor but altitude 0
(near zero), the cycle's Action is Land, not ReturnToLaunch — so "the next
cycle's Action is ReturnToLaunch regardless of what the decision agent
returns" fails as stated whenever the violation occurs at near-zero
altitude. -/
theorem C2_counterexample :
    tLowBatteryGround.battery < cfgEx.safety.batteryFloor ∧
    (decideCycle cfgEx stInFlight tLowBatteryGround 0 (some Action.loiter)).1 =
      Action.land ∧
    (decideCycle cfgEx stInFlight tLowBatteryGround 0 (some Action.loiter)).1 ≠
      Action.returnToLaunch := by
  refine ⟨by decide, by decide, by decide⟩

/-- C2 (amended): in every cycle in which the Safety Monitor reports a
violation, the chosen Action is the safety override — ReturnToLaunch, or Land
if the altitude is near zero — and the decision agent's output is ignored
(the cycle's result is the same for every agent response); in particular, when
the battery is below the configured floor the cycle's Action is ReturnToLaunch
whenever the altitude is not near zero, and Land otherwise, regardless of what
the decision agent returns. -/
theorem C2_safety_override (cfg : OrchestratorConfig) (st : LoopState)
    (t : VehicleTelemetry) (s : Nat) :
    ((evaluate cfg.safety t s).isSome = true →
      (∀ r1 r2, decideCycle cfg st t s r1 = decideCycle cfg st t s r2) ∧
      (∀ r, (decideCycle cfg st t s r).1 = overrideAction cfg t)) ∧
    (t.battery < cfg.safety.batteryFloor →
      ∀ r, (decideCycle cfg st t s r).1 =
        if t.alt ≤ cfg.nearZeroAlt then Action.land else Action.returnToLaunch) := by
  constructor
  · intro h
    cases hev : evaluate cfg.safety t s with
    | none => rw [hev] at h; simp at h
    | some v =>
        constructor
        · intro r1 r2
          simp only [decideCycle, hev]
        · intro r
          simp only [decideCycle, hev]
  · intro hb r
    have hev : evaluate cfg.safety t s =
        some ⟨ViolationKind.lowBattery, "battery below floor", t.timestamp⟩ := by
      unfold evaluate
      rw [if_pos hb]
    simp only [decideCycle, hev, overrideAction]

/-- Witness for C2 at a concrete input: battery 9/100 below the 1/10 floor at
altitude 20 (not near zero) forces ReturnToLaunch even though the agent
answered Disarm. -/
theorem C2_safety_override_witness :
    (decideCycle cfgEx stInFlight tLowBatteryAir 0 (some Action.disarm)).1 =
      Action.returnToLaunch := by
  have h := (C2_safety_override cfgEx stInFlight tLowBatteryAir 0).2
    (by decide) (some Action.disarm)
  rw [h]
  decide

/-- C6: in a cycle with no safety violation where the agent does not respond
within the decision timeout, the chosen Action is the configured default
(Loiter), and — a single timeout being below the configured fatal count — the
mission state is unchanged, so the mission does not become terminal because of
this one timeout. -/
theorem C6_decision_timeout_fallback (cfg : OrchestratorConfig) (st : LoopState)
    (t : VehicleTelemetry) (s : Nat)
    (hviol : evaluate cfg.safety t s = none)
    (hdef : cfg.defaultAction = Action.loiter)
    (hfirst : st.consecutiveTimeouts = 0)
    (hcount : 1 < cfg.maxConsecutiveTimeouts) :
    (decideCycle cfg st t s none).1 = Action.loiter ∧
    (decideCycle cfg st t s none).2.mission = st.mission := by
  have hnot : ¬ cfg.maxConsecutiveTimeouts ≤ st.consecutiveTimeouts + 1 := by
    rw [hfirst]
    exact Nat.not_le.mpr hcount
  simp only [decideCycle, hviol, if_neg hnot]
  exact ⟨hdef, trivial⟩

/-- Witness for C6 at a concrete input: a healthy snapshot and an
unresponsive agent yield Loiter and leave the mission InFlight. -/
theorem C6_decision_timeout_fallback_witness :
    (decideCycle cfgEx stInFlight tHealthy 0 none).1 = Action.loiter ∧
    (decideCycle cfgEx stInFlight tHealthy 0 none).2.mission = stInFlight.mission :=
  C6_decision_timeout_fallback cfgEx stInFlight tHealthy 0
    (by decide) (by decide) (by decide) (by decide)

/-- C7: starting from no accumulated timeouts with the configured fatal count
3, three consecutive cycles with no safety violation in which the decision
agent exceeds its timeout drive the mission to Failed with triggering cause
Decision-Timeout. -/
theorem C7_three_timeouts_fail (cfg : OrchestratorConfig) (st : LoopState)
    (t1 t2 t3 : VehicleTelemetry) (s1 s2 s3 : Nat)
    (hmax : cfg.maxConsecutiveTimeouts = 3)
    (hcnt : st.consecutiveTimeouts = 0)
    (h1 : evaluate cfg.safety t1 s1 = none)
    (h2 : evaluate cfg.safety t2 s2 = none)
    (h3 : evaluate cfg.safety t3 s3 = none) :
    (runDecisions cfg st [(t1, s1, none), (t2, s2, none), (t3, s3, none)]).mission =
      MissionState.failed ∧
    (runDecisions cfg st [(t1, s1, none), (t2, s2, none), (t3, s3, none)]).failureCause =
      some FailureCause.decisionTimeout := by
  obtain ⟨m, c, f⟩ := st
  simp only at hcnt
  subst hcnt
  simp [runDecisions, decideCycle, h1, h2, h3, hmax]

/-- Witness for C7 at a concrete input: three healthy-snapshot cycles with an
unresponsive agent end in Failed with cause Decision-Timeout. -/
theorem C7_three_timeouts_fail_witness :
    (runDecisions cfgEx stInFlight
        [(tHealthy, 0, none), (tHealthy, 1, none), (tHealthy, 2, none)]).mission =
      MissionState.failed ∧
    (runDecisions cfgEx stInFlight
        [(tHealthy, 0, none), (tHealthy, 1, none), (tHealthy, 2, none)]).failureCause =
      some FailureCause.decisionTimeout :=
  C7_three_timeouts_fail cfgEx stInFlight tHealthy tHealthy tHealthy 0 1 2
    (by decide) (by decide) (by decide) (by decide) (by decide)

/-- Modelled from the spec: §4.2 Telemetry Cache — the latest vehicle
snapshot (none until the first successful poll) and the staleness counter. -/
structure TelemetryCache where
  cached : Option VehicleTelemetry
  staleness : Nat
  deriving Repr, DecidableEq

/-- The cache before any poll: no snapshot, zero staleness. -/
def TelemetryCache.init : TelemetryCache :=
  { cached := none, staleness := 0 }

/-- Modelled from the spec: §4.2 `latest() -> VehicleTelemetry option`. -/
def TelemetryCache.latest (c : TelemetryCache) : Option VehicleTelemetry :=
  c.cached

/-- Modelled from the spec: §4.2 `refresh()` performs one poll cycle; the
poll's outcome is `some` snapshot on success and `none` on failure.  The
cached snapshot is replaced only on success, on which the staleness counter
resets to zero; on failure the stale snapshot is retained and the staleness
counter increments. -/
def TelemetryCache.refresh (c : TelemetryCache) (poll : Option VehicleTelemetry) :
    TelemetryCache :=
  match poll with
  | some t => { cached := some t, staleness := 0 }
  | none => { cached := c.cached, staleness := c.staleness + 1 }

/-- Iterated `refresh` over a list of poll outcomes. -/
def TelemetryCache.refreshAll (c : TelemetryCache) :
    List (Option VehicleTelemetry) → TelemetryCache
  | [] => c
  | p :: rest => TelemetryCache.refreshAll (c.refresh p) rest

/-- After any number of failed polls the cache keeps its snapshot and has
accumulated exactly that many staleness increments. -/
theorem TelemetryCache.refreshAll_failed (c : TelemetryCache) (n : Nat) :
    TelemetryCache.refreshAll c (List.replicate n none) =
      { cached := c.cached, staleness := c.staleness + n } := by
  induction n generalizing c with
  | zero => simp [TelemetryCache.refreshAll]
  | succ k ih =>
      simp only [List.replicate, TelemetryCache.refreshAll, TelemetryCache.refresh]
      rw [ih]
      simp only [TelemetryCache.mk.injEq, true_and]
      omega

/-- C8: `latest()` is none until the first successful poll (in particular
after any number of failed polls from the initial cache); a successful
`refresh` replaces the snapshot and zeroes the staleness counter; a failed
`refresh` retains the previous snapshot unchanged and increments the
staleness counter; and the staleness counter is zero after a refresh iff that
refresh was successful — nothing but a successful refresh resets it (refresh
is the cache's only mutator in the model, per §5's single-writer rule). -/
theorem C8_telemetry_cache (c : TelemetryCache) (t : VehicleTelemetry)
    (p : Option VehicleTelemetry) (n : Nat) :
    TelemetryCache.init.latest = none ∧
    (TelemetryCache.refreshAll TelemetryCache.init (List.replicate n none)).latest =
      none ∧
    (c.refresh (some t)).cached = some t ∧
    (c.refresh (some t)).staleness = 0 ∧
    (c.refresh none).cached = c.cached ∧
    (c.refresh none).staleness = c.staleness + 1 ∧
    ((c.refresh p).staleness = 0 ↔ p.isSome = true) := by
  refine ⟨rfl, ?_, rfl, rfl, rfl, rfl, ?_⟩
  · rw [TelemetryCache.refreshAll_failed]
    rfl
  · cases p <;> simp [TelemetryCache.refresh]

/-- Modelled from the spec: §3 `Command` lifecycle states —
Pending → Acked → Completed|Failed|TimedOut. -/
inductive CommandStatus
  | pending
  | acked
  | completed
  | failed
  | timedOut
  deriving Repr, DecidableEq

/-- Completed, Failed and TimedOut are the terminal command results (§3). -/
def CommandStatus.isTerminal : CommandStatus → Bool
  | .completed => true
  | .failed => true
  | .timedOut => true
  | _ => false

/-- Modelled from the spec: the legal per-command lifecycle steps of §3 —
Pending → Acked → Completed|Failed|TimedOut; a Pending command may also fail
or time out directly, per §4.1 `execute` failing with Timeout or Rejected. -/
def legalStatusStep : CommandStatus → CommandStatus → Bool
  | .pending, .acked => true
  | .pending, .failed => true
  | .pending, .timedOut => true
  | .acked, .completed => true
  | .acked, .failed => true
  | .acked, .timedOut => true
  | _, _ => false

/-- Modelled from the spec: §3 `Command` — the wire-level translation of an
Action plus a unique correlation id and the lifecycle status. -/
structure Command where
  correlationId : Nat
  action : Action
  status : CommandStatus
  deriving Repr, DecidableEq

/-- The Orchestrator's dispatch bookkeeping for one mission instance: the
commands created so far (most recent first) and the next correlation id. -/
structure DispatchState where
  commands : List Command
  nextId : Nat
  deriving Repr, DecidableEq

/-- No commands dispatched yet. -/
def DispatchState.init : DispatchState :=
  { commands := [], nextId := 0 }

/-- Modelled from the spec: §4.5's ordering guarantee — a new command may be
dispatched only once every previously dispatched command has reached a
terminal `CommandResult` or timed out. -/
def canDispatch (d : DispatchState) : Bool :=
  d.commands.all (fun c => c.status.isTerminal)

/-- The events that change dispatch bookkeeping: the Orchestrator dispatching
an Action, or the Protocol Client updating the outstanding command's status
(the Command's lifecycle field being the only mutable part, updated only by
the Protocol Client, §3). -/
inductive DispatchEvent
  | dispatch (a : Action)
  | statusUpdate (s : CommandStatus)
  deriving Repr, DecidableEq

/-- Modelled from the spec: one dispatch-bookkeeping step.  A dispatch is
issued only when the previous command has reached a terminal result (§4.5's
ordering guarantee; otherwise the Orchestrator is still waiting and the event
is a no-op), creating a fresh Pending command with a unique correlation id.
A status update applies to the most recent command, along the legal
lifecycle only. -/
def dispatchStep (d : DispatchState) : DispatchEvent → DispatchState
  | .dispatch a =>
      if canDispatch d then
        { commands :=
            { correlationId := d.nextId, action := a, status := CommandStatus.pending }
              :: d.commands,
          nextId := d.nextId + 1 }
      else d
  | .statusUpdate s2 =>
      match d.commands with
      | [] => d
      | c :: rest =>
          if legalStatusStep c.status s2 then
            { commands := { c with status := s2 } :: rest, nextId := d.nextId }
          else d

/-- Iterated dispatch-bookkeeping steps. -/
def dispatchRun (d : DispatchState) : List DispatchEvent → DispatchState
  | [] => d
  | e :: rest => dispatchRun (dispatchStep d e) rest

/-- The number of commands currently in the Pending state. -/
def pendingCount (d : DispatchState) : Nat :=
  (d.commands.filter (fun c => c.status == CommandStatus.pending)).length

/-- The inductive invariant: every command except possibly the most recent
one has reached a terminal result. -/
def tailTerminal (d : DispatchState) : Bool :=
  match d.commands with
  | [] => true
  | _ :: rest => rest.all (fun c => c.status.isTerminal)

/-- Each dispatch-bookkeeping step preserves the invariant. -/
theorem tailTerminal_step (d : DispatchState) (e : DispatchEvent)
    (h : tailTerminal d = true) : tailTerminal (dispatchStep d e) = true := by
  cases e with
  | dispatch a =>
      by_cases hc : canDispatch d = true
      · simp only [dispatchStep, if_pos hc, tailTerminal]
        exact hc
      · simp only [dispatchStep, if_neg hc]
        exact h
  | statusUpdate s2 =>
      cases hcmd : d.commands with
      | nil => simpa [dispatchStep, hcmd] using h
      | cons c rest =>
          by_cases hl : legalStatusStep c.status s2 = true
          · simp only [dispatchStep, hcmd, if_pos hl, tailTerminal]
            simpa [tailTerminal, hcmd] using h
          · simpa [dispatchStep, hcmd, if_neg hl] using h

/-- Any run from an invariant-satisfying state stays within the invariant. -/
theorem tailTerminal_run (d : DispatchState) (es : List DispatchEvent)
    (h : tailTerminal d = true) : tailTerminal (dispatchRun d es) = true := by
  induction es generalizing d with
  | nil => exact h
  | cons e rest ih => exact ih (dispatchStep d e) (tailTerminal_step d e h)

/-- A terminal command status is never Pending. -/
theorem isTerminal_ne_pending (s : CommandStatus) (h : s.isTerminal = true) :
    (s == CommandStatus.pending) = false := by
  cases s <;> simp_all [CommandStatus.isTerminal]

/-- The invariant bounds the number of Pending commands by one. -/
theorem tailTerminal_pendingCount (d : DispatchState)
    (h : tailTerminal d = true) : pendingCount d ≤ 1 := by
  unfold pendingCount
  cases hcmd : d.commands with
  | nil => simp
  | cons c rest =>
      have hrest : rest.filter (fun c => c.status == CommandStatus.pending) = [] := by
        rw [List.filter_eq_nil_iff]
        intro x hx
        have hterm : x.status.isTerminal = true := by
          have hall : rest.all (fun c => c.status.isTerminal) = true := by
            simpa [tailTerminal, hcmd] using h
          exact List.all_eq_true.mp hall x hx
        simp [isTerminal_ne_pending x.status hterm]
      cases hp : (c.status == CommandStatus.pending) <;>
        simp [List.filter, hp, hrest]

/-- C3: in every state reachable from the initial dispatch state, at most one
Command is Pending; and a dispatch event actually creates a new Command only
when every previously dispatched Command has reached a terminal result — the
Orchestrator never dispatches a new Command while one is outstanding. -/
theorem C3_at_most_one_pending (es : List DispatchEvent) (d : DispatchState)
    (a : Action) :
    pendingCount (dispatchRun DispatchState.init es) ≤ 1 ∧
    ((dispatchStep d (DispatchEvent.dispatch a)).commands.length ≠
        d.commands.length →
      canDispatch d = true ∧ ∀ c ∈ d.commands, c.status.isTerminal = true) := by
  constructor
  · exact tailTerminal_pendingCount _ (tailTerminal_run DispatchState.init es rfl)
  · intro hne
    by_cases hc : canDispatch d = true
    · exact ⟨hc, fun c hm => List.all_eq_true.mp hc c hm⟩
    · exfalso
      apply hne
      simp [dispatchStep, if_neg hc]

/-- Witness for C3 on a concrete trace: dispatch Arm, ack it, attempt a
second dispatch while Arm is still outstanding (a no-op), complete Arm, then
dispatch Loiter — never more than one Pending command, and from the empty
initial state a dispatch does go through. -/
theorem C3_at_most_one_pending_witness :
    pendingCount (dispatchRun DispatchState.init
      [DispatchEvent.dispatch Action.arm,
       DispatchEvent.statusUpdate CommandStatus.acked,
       DispatchEvent.dispatch Action.loiter,
       DispatchEvent.statusUpdate CommandStatus.completed,
       DispatchEvent.dispatch Action.loiter]) ≤ 1 ∧
    canDispatch DispatchState.init = true := by
  have h := C3_at_most_one_pending
    [DispatchEvent.dispatch Action.arm,
     DispatchEvent.statusUpdate CommandStatus.acked,
     DispatchEvent.dispatch Action.loiter,
     DispatchEvent.statusUpdate CommandStatus.completed,
     DispatchEvent.dispatch Action.loiter]
    DispatchState.init Action.arm
  exact ⟨h.1, (h.2 (by decide)).1⟩

/-- Modelled from the spec: the terminal outcome of the best-effort final
command attempted during cancellation (§5) — it may complete, fail, or hit
its short timeout. -/
inductive CommandOutcome
  | completed
  | failed
  | timedOut
  deriving Repr, DecidableEq

/-- What the cancellation path produces, in order: the command attempts it
issues, then the mission state it leaves behind, and whether the Session was
released. -/
structure CancelOutcome where
  attempted : List Action
  finalMission : MissionState
  sessionReleased : Bool
  deriving Repr, DecidableEq

/-- Modelled from the spec: §5 Cancellation — on an external abort signal the
Orchestrator synthesizes and attempts one ReturnToLaunch/Land command (the
Safety Monitor's override choice when a snapshot is available, ReturnToLaunch
when none is), with a short best-effort timeout whose outcome is `result`;
then it transitions `MissionState` to Aborted and releases the Session
regardless of whether that final command succeeded.  The `attempted` list
holds every command attempt made before the mission reaches Aborted. -/
def handleCancellation (cfg : OrchestratorConfig) (t : Option VehicleTelemetry)
    (_result : CommandOutcome) : CancelOutcome :=
  let a :=
    match t with
    | some t2 => overrideAction cfg t2
    | none => Action.returnToLaunch
  { attempted := [a], finalMission := MissionState.aborted, sessionReleased := true }

/-- C5: on every external cancellation signal, exactly one command attempt is
issued before the mission reaches Aborted, and it is ReturnToLaunch or Land;
the mission then ends Aborted with the Session released, and the whole
outcome is identical whether the final command completed, failed or timed
out. -/
theorem C5_cancellation (cfg : OrchestratorConfig) (t : Option VehicleTelemetry)
    (r r2 : CommandOutcome) :
    (handleCancellation cfg t r).attempted.length = 1 ∧
    ((handleCancellation cfg t r).attempted = [Action.returnToLaunch] ∨
      (handleCancellation cfg t r).attempted = [Action.land]) ∧
    (handleCancellation cfg t r).finalMission = MissionState.aborted ∧
    (handleCancellation cfg t r).sessionReleased = true ∧
    handleCancellation cfg t r = handleCancellation cfg t r2 := by
  refine ⟨rfl, ?_, rfl, rfl, rfl⟩
  cases t with
  | none => left; rfl
  | some t2 =>
      simp only [handleCancellation, overrideAction]
      by_cases h : t2.alt ≤ cfg.nearZeroAlt
      · right; rw [if_pos h]
      · left; rw [if_neg h]

/-- The externally visible calls `src/main.py` makes when run as the main
module: constructing an `AgenticController`, and invoking `mission_loop`
with a controller and an endpoint URL. -/
inductive MainCall
  | constructController
  | runMissionLoop (controllerIndex : Nat) (mcpUrl : String)
  deriving Repr, DecidableEq

/-- Embedding of `src/main.py`'s `__main__` block: it constructs one
`AgenticController` (`ctrl = AgenticController()`) and then runs
`mission_loop(ctrl, mcp_url="http://localhost:5090/mcp")` once.  The block
reads no launch input, so the trace is the same constant for every `argv`;
controller index 0 names the one controller just constructed. -/
def mainTrace (_argv : List String) : List MainCall :=
  [MainCall.constructController,
   MainCall.runMissionLoop 0 "http://localhost:5090/mcp"]

/-- C10: every invocation of the entry point constructs exactly one
`AgenticController` and invokes `mission_loop` exactly once, with that
controller and the constant URL "http://localhost:5090/mcp"; the trace does
not depend on the launch input, so each process hosts at most one mission
orchestration loop. -/
theorem C10_single_mission_loop (argv : List String) :
    mainTrace argv =
      [MainCall.constructController,
       MainCall.runMissionLoop 0 "http://localhost:5090/mcp"] ∧
    ((mainTrace argv).filter (fun c =>
        match c with
        | MainCall.constructController => true
        | _ => false)).length = 1 ∧
    ((mainTrace argv).filter (fun c =>
        match c with
        | MainCall.runMissionLoop _ _ => true
        | _ => false)).length = 1 ∧
    mainTrace argv = mainTrace [] :=
  ⟨rfl, rfl, rfl, rfl⟩

/-- C9 counterexample: two launches whose supplied inputs name different
endpoint URLs produce identical traces, both addressing the constant
"http://localhost:5090/mcp" — the endpoint URL is not part of any startup
parameter set, it is hardcoded in `main.py`. -/
theorem C9_counterexample :
    "http://mission-ops.example:9000/mcp" ≠ "http://localhost:5090/mcp" ∧
    mainTrace ["http://mission-ops.example:9000/mcp"] =
      mainTrace ["http://localhost:5090/mcp"] ∧
    MainCall.runMissionLoop 0 "http://localhost:5090/mcp" ∈
      mainTrace ["http://mission-ops.example:9000/mcp"] := by
  refine ⟨by decide, rfl, ?_⟩
  simp [mainTrace]

/-- C9 (amended): the remote endpoint URL is not a launch parameter — the
entry point passes the hardcoded constant "http://localhost:5090/mcp" to
`mission_loop` on every launch, identically for all launch inputs, and
consults nothing else (the trace is a pure constant function of the launch
input). -/
theorem C9_hardcoded_endpoint (argv1 argv2 : List String) :
    mainTrace argv1 = mainTrace argv2 ∧
    MainCall.runMissionLoop 0 "http://localhost:5090/mcp" ∈ mainTrace argv1 := by
  refine ⟨rfl, ?_⟩
  simp [mainTrace]

end PX4
